import Mathlib

/-
Verification of stock_pattern_analyzer/search_index.py.

The module defines three nearest-neighbour index backends sharing the
_BaseIndex contract (create / query / load / serialize):

  * FastIndex            - faiss.IndexFlatL2 (exact, squared L2 distances)
  * MemoryEfficientIndex - faiss.IndexIVFPQ  (approximate, product quantization)
  * cKDTreeIndex         - scipy.spatial.ckdtree.cKDTree (exact, L2 distances)

Shallow embedding conventions:
  * vectors and matrices carry rational entries (the idealisation of the
    numeric arrays; floating point rounding is not modelled);
  * returned distances are `WithTop ℚ` (faiss, squared L2) respectively
    `WithTop ℝ` (scipy, true L2); the top element models the infinite
    padding value both libraries emit when k exceeds the number of rows;
  * Python exceptions are the explicit `PyError` results: `attributeNone`
    models the AttributeError raised by calling a method on
    `self.index = None` (the spec taxonomy's NotBuiltError), `valueError`
    models the ValueError raised in MemoryEfficientIndex.create when no
    subdivision factor fits (the spec taxonomy's ConfigurationError), and
    `typeError` models the faiss failure on serializing a None index;
  * a persisted file is modelled by its parsed contents: faiss
    write_index/read_index and pickle dump/load are inverse bijections
    between an index object and its byte serialization, so the byte level
    is elided;
  * both faiss.IndexFlatL2.search and cKDTree.query are exact k-nearest
    neighbour searches of external libraries; their shared mathematical
    behaviour is `exactKnn` below, with the tie-break (ascending distance,
    then ascending row index) the spec fixes for both backends.
-/

abbrev Vec : Type := List ℚ

abbrev Mat : Type := List Vec

/-- The value `X.shape[-1]` of a (well-formed, row-major) numpy matrix: the common
length of its rows. -/
def lastDim (X : Mat) : Nat := X.headI.length

/-- Python exceptions surfacing from the embedded methods. -/
inductive PyError : Type
  | attributeNone : PyError
  | valueError : PyError
  | typeError : PyError
deriving DecidableEq

/-- Squared Euclidean distance between two vectors of equal dimension
(numpy/faiss/scipy all compute the same sum of squared coordinate
differences). -/
def sqDist (q x : Vec) : ℚ := (List.zipWith (fun a b => (a - b) ^ 2) q x).sum

/-- Result ordering shared by both exact backends: ascending distance,
ties broken by the lower row index. -/
def knnLE (a b : Nat × ℚ) : Prop := a.2 < b.2 ∨ (a.2 = b.2 ∧ a.1 ≤ b.1)

instance : DecidableRel knnLE := fun a b => by
  unfold knnLE; infer_instance

/-- All dataset rows paired with their squared distance to the query,
sorted by `knnLE`. -/
def rankedNeighbors (X : Mat) (q : Vec) : List (Nat × ℚ) :=
  List.insertionSort knnLE (X.enum.map (fun ix => (ix.1, sqDist q ix.2)))

/-- The exact k-nearest-neighbour result: row indices with squared
distances, ascending, at most `k` of them (fewer when the dataset has
fewer than `k` rows). -/
def exactKnn (X : Mat) (q : Vec) (k : Nat) : List (Nat × ℚ) :=
  (rankedNeighbors X q).take k

/-! ## faiss objects used by the module -/

/-- Models `faiss.IndexFlatL2`: a flat index storing the added vectors verbatim;
`d` is the dimension passed to the constructor, `xb` the vectors added so
far. -/
structure IndexFlatL2 : Type where
  d : Nat
  xb : Mat
deriving DecidableEq

/-- The constructor `faiss.IndexFlatL2(d)`: an empty flat index. -/
def IndexFlatL2.empty (d : Nat) : IndexFlatL2 := ⟨d, []⟩

/-- Models `index.add(X)`: appends the rows of `X` to the stored vectors. -/
def IndexFlatL2.add (idx : IndexFlatL2) (X : Mat) : IndexFlatL2 :=
  ⟨idx.d, idx.xb ++ X⟩

/-- Models `index.search(q, k)` on a single query row: the k nearest stored rows
by squared L2 distance, ascending; when `k` exceeds the number of stored
rows, faiss pads the distance row with its infinite sentinel and the label
row with `-1`. -/
def IndexFlatL2.searchOne (idx : IndexFlatL2) (q : Vec) (k : Nat) :
    List (WithTop ℚ) × List Int :=
  let res := exactKnn idx.xb q k
  (res.map (fun p => ((p.2 : ℚ) : WithTop ℚ)) ++ List.replicate (k - res.length) ⊤,
   res.map (fun p => (p.1 : Int)) ++ List.replicate (k - res.length) (-1))

/-- Models `index.search(Q, k)` on a batch: one `(distances, labels)` row per
query row (the pair of 2-D numpy arrays, transposed into a row list). -/
def IndexFlatL2.search (idx : IndexFlatL2) (Q : Mat) (k : Nat) :
    List (List (WithTop ℚ) × List Int) :=
  Q.map (fun q => idx.searchOne q k)

/-- Models `faiss.IndexIVFPQ(quantizer, d, nlist, m, nbits)` after `train(X)`
and `add(X)`: the parameters together with the indexed vectors. -/
structure IndexIVFPQ : Type where
  d : Nat
  nlist : Nat
  m : Nat
  nbits : Nat
  xb : Mat
deriving DecidableEq

/-- Models `index.search(Q, k)` of a trained IVFPQ index. The IVFPQ search is
the approximate product-quantization scan of the faiss library; its
internals are external to this repository and no claim depends on the
returned values, only on the repo-visible shape (row selection and
padding), so the values are modelled by the exact scan of the stored
vectors. -/
def IndexIVFPQ.search (idx : IndexIVFPQ) (Q : Mat) (k : Nat) :
    List (List (WithTop ℚ) × List Int) :=
  Q.map (fun q => (IndexFlatL2.mk idx.d idx.xb).searchOne q k)

/-! ## scipy cKDTree -/

/-- Models `scipy.spatial.ckdtree.cKDTree(data=X)`: an exact k-d tree over the
rows of `X`. -/
structure cKDTree : Type where
  data : Mat
deriving DecidableEq

/-- Models `tree.query(x, k)` on a single query vector: the k nearest rows by
Euclidean (not squared) L2 distance, ascending; when `k` exceeds the
number of rows, scipy pads distances with infinity and indices with `n`
(the number of rows). -/
noncomputable def cKDTree.queryOne (t : cKDTree) (x : Vec) (k : Nat) :
    List (WithTop ℝ) × List Nat :=
  let res := exactKnn t.data x k
  (res.map (fun p => ((Real.sqrt (p.2 : ℝ) : ℝ) : WithTop ℝ)) ++
     List.replicate (k - res.length) ⊤,
   res.map Prod.fst ++ List.replicate (k - res.length) t.data.length)

/-- Models `tree.query(x, k)` on a batch of query vectors: one result row per
query vector. -/
noncomputable def cKDTree.queryBatch (t : cKDTree) (xs : Mat) (k : Nat) :
    List (List (WithTop ℝ) × List Nat) :=
  xs.map (fun x => t.queryOne x k)

/-! ## FastIndex -/

/-- State of `FastIndex`: `self.index` is `None` after `__init__` and holds the
faiss flat index after `create`. -/
structure FastIndex : Type where
  index : Option IndexFlatL2
deriving DecidableEq

/-- Constructor `FastIndex()`: `_BaseIndex.__init__` sets `self.index = None`. -/
def FastIndex.new : FastIndex := ⟨none⟩

/-- Method `FastIndex.create(X)`: `self.index = faiss.IndexFlatL2(X.shape[-1])`
then `self.index.add(X)`. -/
def FastIndex.create (_s : FastIndex) (X : Mat) : FastIndex :=
  ⟨some ((IndexFlatL2.empty (lastDim X)).add X)⟩

/-- Method `FastIndex.query(q, k)`: `self.index.search(q, k)` then
`return distances[0], indices[0]` — only row 0 of the batched result is
returned. On the unbuilt instance `self.index` is `None` and the method
call raises AttributeError. (On an empty batch Python would raise
IndexError on `[0]`; claims use nonempty batches, modelled by `headI`.) -/
def FastIndex.query (s : FastIndex) (q : Mat) (k : Nat) :
    Except PyError (List (WithTop ℚ) × List Int) :=
  match s.index with
  | none => .error .attributeNone
  | some idx => .ok ((idx.search q k).headI)

/-- The file written by `faiss.write_index` for a flat index, modelled by
its parsed contents. -/
structure FaissFlatFile : Type where
  contents : IndexFlatL2
deriving DecidableEq

/-- Method `FastIndex.serialize(path)`: `faiss.write_index(self.index, path)`;
writing a `None` index is a faiss usage error. -/
def FastIndex.serialize (s : FastIndex) : Except PyError FaissFlatFile :=
  match s.index with
  | none => .error .typeError
  | some idx => .ok ⟨idx⟩

/-- Method `FastIndex.load(file_path)`: the body evaluates
`faiss.read_index(str(file_path))` but never assigns or returns the
result; the method falls off its end, so Python returns `None` where a
`FastIndex` instance is expected. -/
def FastIndex.load (_f : FaissFlatFile) : Option FastIndex := none

/-! ## MemoryEfficientIndex -/

/-- State of `MemoryEfficientIndex`: `self.index` is `None` after `__init__` and
holds the faiss IVFPQ index after `create`. -/
structure MemoryEfficientIndex : Type where
  index : Option IndexIVFPQ
deriving DecidableEq

/-- Constructor `MemoryEfficientIndex()`: `self.index = None`. -/
def MemoryEfficientIndex.new : MemoryEfficientIndex := ⟨none⟩

/-- The `if/elif/else` chain of `MemoryEfficientIndex.create` selecting
the subdivision factor `m` from `d = X.shape[-1]`: `4` when `d % 4 == 0`,
else `5` when `d % 5 == 0`, else `2` when `d % 2 == 0`, else
`raise ValueError(...)`. -/
def MemoryEfficientIndex.chooseM (d : Nat) : Except PyError Nat :=
  if d % 4 = 0 then .ok 4
  else if d % 5 = 0 then .ok 5
  else if d % 2 = 0 then .ok 2
  else .error .valueError

/-- The statements of `MemoryEfficientIndex.create` in source order, used
to record how far a call progressed. -/
inductive CreateStep : Type
  | selectM : CreateStep
  | constructQuantizer : CreateStep
  | trainIndex : CreateStep
  | addData : CreateStep
deriving DecidableEq

/-- Method `MemoryEfficientIndex.create(X)`: selects `m` (raising ValueError
when no candidate divides `d`), then constructs the coarse quantizer
`faiss.IndexFlatL2(d)`, builds `faiss.IndexIVFPQ(quantizer, d, 100, m, 8)`,
trains it and adds `X`. Returns the instance state after the call (the
raise happens before the quantizer line, so on failure `self.index` is
untouched), the normal/exceptional outcome, and the trace of executed
steps. -/
def MemoryEfficientIndex.create (s : MemoryEfficientIndex) (X : Mat) :
    MemoryEfficientIndex × Except PyError Unit × List CreateStep :=
  match MemoryEfficientIndex.chooseM (lastDim X) with
  | .error e => (s, .error e, [CreateStep.selectM])
  | .ok m =>
      (⟨some ⟨lastDim X, 100, m, 8, X⟩⟩, .ok (),
       [CreateStep.selectM, CreateStep.constructQuantizer,
        CreateStep.trainIndex, CreateStep.addData])

/-- Method `MemoryEfficientIndex.query(q, k)`: `self.index.search(q, k)` then
`return distances[0], indices[0]`; AttributeError on the unbuilt
instance. -/
def MemoryEfficientIndex.query (s : MemoryEfficientIndex) (q : Mat) (k : Nat) :
    Except PyError (List (WithTop ℚ) × List Int) :=
  match s.index with
  | none => .error .attributeNone
  | some idx => .ok ((idx.search q k).headI)

/-- The file written by `faiss.write_index` for an IVFPQ index. -/
structure FaissIVFPQFile : Type where
  contents : IndexIVFPQ
deriving DecidableEq

/-- Method `MemoryEfficientIndex.serialize(path)`:
`faiss.write_index(self.index, path)`. -/
def MemoryEfficientIndex.serialize (s : MemoryEfficientIndex) :
    Except PyError FaissIVFPQFile :=
  match s.index with
  | none => .error .typeError
  | some idx => .ok ⟨idx⟩

/-- Method `MemoryEfficientIndex.load(file_path)`: `obj = cls()`,
`obj.index = faiss.read_index(str(file_path))`, `return obj`. -/
def MemoryEfficientIndex.load (f : FaissIVFPQFile) : MemoryEfficientIndex :=
  ⟨some f.contents⟩

/-! ## cKDTreeIndex -/

/-- State of `cKDTreeIndex`: `self.index` is `None` after `__init__` and holds the
scipy tree after `create`. -/
structure cKDTreeIndex : Type where
  index : Option cKDTree
deriving DecidableEq

/-- Constructor `cKDTreeIndex()`: `self.index = None`. -/
def cKDTreeIndex.new : cKDTreeIndex := ⟨none⟩

/-- Method `cKDTreeIndex.create(X)`: `self.index = cKDTree(data=X)`. -/
def cKDTreeIndex.create (_s : cKDTreeIndex) (X : Mat) : cKDTreeIndex :=
  ⟨some ⟨X⟩⟩

/-- Method `cKDTreeIndex.query(q, k)` with a single query vector:
`self.index.query(x=q, k=k)` returned unchanged (no `[0]` row selection
here); AttributeError on the unbuilt instance. -/
noncomputable def cKDTreeIndex.query (s : cKDTreeIndex) (q : Vec) (k : Nat) :
    Except PyError (List (WithTop ℝ) × List Nat) :=
  match s.index with
  | none => .error .attributeNone
  | some t => .ok (t.queryOne q k)

/-- Method `cKDTreeIndex.query(q, k)` with a batch of query vectors: scipy
returns one result row per query vector and the method passes them
through unchanged. -/
noncomputable def cKDTreeIndex.queryBatch (s : cKDTreeIndex) (xs : Mat) (k : Nat) :
    Except PyError (List (List (WithTop ℝ) × List Nat)) :=
  match s.index with
  | none => .error .attributeNone
  | some t => .ok (t.queryBatch xs k)

/-- The file written by `pickle.dump(self.index, f)`; pickling works for
any value of `self.index`, including `None`. -/
structure PickleFile : Type where
  contents : Option cKDTree
deriving DecidableEq

/-- Method `cKDTreeIndex.serialize(path)`: `pickle.dump(self.index, f)`. -/
def cKDTreeIndex.serialize (s : cKDTreeIndex) : PickleFile := ⟨s.index⟩

/-- Method `cKDTreeIndex.load(file_path)`: `obj = cls()`,
`obj.index = pickle.load(f)`, `return obj`. -/
def cKDTreeIndex.load (f : PickleFile) : cKDTreeIndex := ⟨f.contents⟩

/-! ## Helpers for comparing backend results -/

/-- Embeds a faiss distance (a squared-L2 rational, or the infinite
padding value) into the reals, for comparison with scipy results. -/
def qcast (a : WithTop ℚ) : WithTop ℝ := WithTop.map (fun x : ℚ => (x : ℝ)) a

/-- The (index, distance) multiset of a `FastIndex.query` result, with
distances read in the reals. -/
def flatResultPairs (r : List (WithTop ℚ) × List Int) : Multiset (Int × WithTop ℝ) :=
  ↑(r.2.zip (r.1.map qcast))

/-- The (index, distance) multiset of a `cKDTreeIndex.query` result, with
indices read in the integers. -/
def treeResultPairs (r : List (WithTop ℝ) × List Nat) : Multiset (Int × WithTop ℝ) :=
  ↑((r.2.map (fun n => (n : Int))).zip r.1)

/-! ## General lemmas about the shared exact search -/

theorem sqDist_nonneg (q x : Vec) : 0 ≤ sqDist q x := by
  unfold sqDist
  apply List.sum_nonneg
  intro a ha
  induction q generalizing x with
  | nil => simp [List.zipWith] at ha
  | cons b bs ih =>
      cases x with
      | nil => simp [List.zipWith] at ha
      | cons c cs =>
          simp only [List.zipWith, List.mem_cons] at ha
          rcases ha with h | h
          · subst h; positivity
          · exact ih cs h

theorem mem_rankedNeighbors_nonneg (X : Mat) (q : Vec) (p : Nat × ℚ)
    (hp : p ∈ rankedNeighbors X q) : 0 ≤ p.2 := by
  unfold rankedNeighbors at hp
  have hmem := (List.perm_insertionSort knnLE _).mem_iff.mp hp
  rcases List.mem_map.mp hmem with ⟨ix, _, hix⟩
  rw [← hix]
  exact sqDist_nonneg q ix.2

theorem mem_exactKnn_nonneg (X : Mat) (q : Vec) (k : Nat) (p : Nat × ℚ)
    (hp : p ∈ exactKnn X q k) : 0 ≤ p.2 :=
  mem_rankedNeighbors_nonneg X q p ((List.take_sublist k _).subset hp)

theorem length_rankedNeighbors (X : Mat) (q : Vec) :
    (rankedNeighbors X q).length = X.length := by
  unfold rankedNeighbors
  rw [(List.perm_insertionSort knnLE _).length_eq, List.length_map,
    List.enum_length]

theorem length_exactKnn (X : Mat) (q : Vec) (k : Nat) :
    (exactKnn X q k).length = min k X.length := by
  unfold exactKnn
  rw [List.length_take, length_rankedNeighbors]

theorem created_flat_xb (X : Mat) :
    ((IndexFlatL2.empty (lastDim X)).add X).xb = X := by
  simp [IndexFlatL2.empty, IndexFlatL2.add]

/-- Querying a freshly built `FastIndex` on a one-row batch returns the
flat search of that row. -/
theorem flat_query_built (X : Mat) (q : Vec) (k : Nat) :
    FastIndex.query (FastIndex.new.create X) [q] k
      = .ok (((IndexFlatL2.empty (lastDim X)).add X).searchOne q k) := by
  simp [FastIndex.query, FastIndex.create, FastIndex.new, IndexFlatL2.search]

/-- Querying a freshly built `cKDTreeIndex` on a single vector returns
the scipy query over the stored rows. -/
theorem tree_query_built (X : Mat) (q : Vec) (k : Nat) :
    cKDTreeIndex.query (cKDTreeIndex.new.create X) q k
      = .ok ((cKDTree.mk X).queryOne q k) := by
  simp [cKDTreeIndex.query, cKDTreeIndex.create, cKDTreeIndex.new]

/-- Claim C1, corrected. For every dataset, query vector and `k` within
range, `FastIndex` and `cKDTreeIndex` built on the same dataset return
identical index sequences (up to the `Int`/`Nat` representation), but the
distances differ systematically: faiss reports squared L2 distances while
scipy reports L2 distances, so each flat distance is the square of the
corresponding tree distance. -/
theorem C1_flat_tree_agree (X : Mat) (q : Vec) (k : Nat) (hk : k ≤ X.length) :
    ∃ df jf dt jt,
      FastIndex.query (FastIndex.new.create X) [q] k = .ok (df, jf) ∧
      cKDTreeIndex.query (cKDTreeIndex.new.create X) q k = .ok (dt, jt) ∧
      jf = jt.map Int.ofNat ∧
      df.map qcast = dt.map (WithTop.map (fun x : ℝ => x ^ 2)) := by
  have hlen : (exactKnn X q k).length = k := by
    rw [length_exactKnn]; omega
  refine ⟨(exactKnn X q k).map (fun p => ((p.2 : ℚ) : WithTop ℚ)),
          (exactKnn X q k).map (fun p => (p.1 : Int)),
          (exactKnn X q k).map (fun p => ((Real.sqrt (p.2 : ℝ) : ℝ) : WithTop ℝ)),
          (exactKnn X q k).map Prod.fst, ?_, ?_, ?_, ?_⟩
  · rw [flat_query_built]
    simp [IndexFlatL2.searchOne, created_flat_xb, hlen]
  · rw [tree_query_built]
    simp [cKDTree.queryOne, hlen]
  · rw [List.map_map]
    apply List.map_congr_left
    intro p _
    simp [Function.comp, Int.ofNat_eq_coe]
  · rw [List.map_map, List.map_map]
    apply List.map_congr_left
    intro p hp
    have h0 : (0 : ℝ) ≤ (p.2 : ℝ) := by
      exact_mod_cast mem_exactKnn_nonneg X q k p hp
    simp [qcast, Function.comp, Real.sq_sqrt h0]

/-- Claim C1 witness: the corrected equivalence at a concrete in-range
input. -/
theorem C1_flat_tree_agree_witness :
    (1 : Nat) ≤ ([[(0:ℚ)],[1]] : Mat).length ∧
    (∃ df jf dt jt,
      FastIndex.query (FastIndex.new.create [[(0:ℚ)],[1]]) [[0]] 1 = .ok (df, jf) ∧
      cKDTreeIndex.query (cKDTreeIndex.new.create [[(0:ℚ)],[1]]) [0] 1 = .ok (dt, jt) ∧
      jf = jt.map Int.ofNat ∧
      df.map qcast = dt.map (WithTop.map (fun x : ℝ => x ^ 2))) :=
  ⟨by decide, C1_flat_tree_agree [[(0:ℚ)],[1]] [0] 1 (by decide)⟩

/-- Claim C1 counterexample: on the dataset `[(0,0),(2,0)]` with query
`(0,0)` and `k = 2`, faiss returns the squared distance 4 for row 1 while
scipy returns the distance 2, so the (index, distance) sets of the two
backends differ. -/
theorem C1_counterexample :
    FastIndex.query (FastIndex.new.create [[0,0],[2,0]]) [[0,0]] 2
        = .ok ([((0:ℚ) : WithTop ℚ), ((4:ℚ) : WithTop ℚ)], [0, 1]) ∧
    cKDTreeIndex.query (cKDTreeIndex.new.create [[0,0],[2,0]]) [0,0] 2
        = .ok ([((0:ℝ) : WithTop ℝ), ((2:ℝ) : WithTop ℝ)], [0, 1]) ∧
    flatResultPairs ([((0:ℚ) : WithTop ℚ), ((4:ℚ) : WithTop ℚ)], [0, 1])
        ≠ treeResultPairs ([((0:ℝ) : WithTop ℝ), ((2:ℝ) : WithTop ℝ)], [0, 1]) := by
  refine ⟨?_, ?_, ?_⟩
  · norm_num [FastIndex.query, FastIndex.create, FastIndex.new, IndexFlatL2.search,
      IndexFlatL2.searchOne, IndexFlatL2.add, IndexFlatL2.empty, lastDim,
      exactKnn, rankedNeighbors, sqDist, knnLE, List.insertionSort,
      List.orderedInsert, List.enum, List.enumFrom]
  · have h4 : Real.sqrt 4 = 2 := by
      rw [show (4:ℝ) = 2 ^ 2 by norm_num, Real.sqrt_sq (by norm_num : (0:ℝ) ≤ 2)]
    norm_num [cKDTreeIndex.query, cKDTreeIndex.create, cKDTreeIndex.new,
      cKDTree.queryOne, exactKnn, rankedNeighbors, sqDist, knnLE,
      List.insertionSort, List.orderedInsert, List.enum, List.enumFrom,
      Real.sqrt_zero, h4]
  · intro h
    have hq4 : WithTop.map (fun x : ℚ => (x:ℝ)) (4 : WithTop ℚ) = (4 : WithTop ℝ) := by
      have h4 : (4 : WithTop ℚ) = ((4:ℚ) : WithTop ℚ) := by norm_cast
      rw [h4, WithTop.map_coe]
      norm_cast
    have hmem : ((1 : Int), (4 : WithTop ℝ))
        ∈ treeResultPairs ([((0:ℝ) : WithTop ℝ), ((2:ℝ) : WithTop ℝ)], [0, 1]) := by
      rw [← h]
      simp [flatResultPairs, qcast, List.zip, hq4]
    simp [treeResultPairs, List.zip] at hmem

/-- Claim C2, code bug. `FastIndex.load` evaluates `faiss.read_index` but
never assigns or returns the result, so it returns `None` instead of a
ready-to-query instance; the other two backends do return ready
instances. -/
theorem C2_load_behavior (ff : FaissFlatFile) (mf : FaissIVFPQFile) (pf : PickleFile) :
    FastIndex.load ff = none ∧
    (MemoryEfficientIndex.load mf).index = some mf.contents ∧
    (cKDTreeIndex.load pf).index = pf.contents :=
  ⟨rfl, rfl, rfl⟩

/-- Claim C3, code bug. serialize-then-load round-trips query behaviour
for `MemoryEfficientIndex` and `cKDTreeIndex`, but for `FastIndex` the
load step returns `None` (its body discards the read index), so no
restored instance exists to query. -/
theorem C3_roundtrip_status (i : IndexFlatL2) (j : IndexIVFPQ)
    (s : cKDTreeIndex) (q : Mat) (qv : Vec) (k : Nat) :
    (FastIndex.serialize ⟨some i⟩ = .ok ⟨i⟩ ∧ FastIndex.load ⟨i⟩ = none) ∧
    (MemoryEfficientIndex.serialize ⟨some j⟩ = .ok ⟨j⟩ ∧
      MemoryEfficientIndex.query (MemoryEfficientIndex.load ⟨j⟩) q k
        = MemoryEfficientIndex.query ⟨some j⟩ q k) ∧
    (cKDTreeIndex.load (cKDTreeIndex.serialize s) = s ∧
      cKDTreeIndex.query (cKDTreeIndex.load (cKDTreeIndex.serialize s)) qv k
        = cKDTreeIndex.query s qv k) :=
  ⟨⟨rfl, rfl⟩, ⟨rfl, rfl⟩, ⟨rfl, rfl⟩⟩

/-- Claim C4, confirmed. Building `MemoryEfficientIndex` on a dataset
whose dimension is divisible by none of 4, 5, 2 raises the ValueError
(the spec taxonomy's ConfigurationError); when some candidate divides the
dimension, that error is not raised. -/
theorem C4_configuration_error (s : MemoryEfficientIndex) (X : Mat) :
    (¬ 4 ∣ lastDim X ∧ ¬ 5 ∣ lastDim X ∧ ¬ 2 ∣ lastDim X →
      (MemoryEfficientIndex.create s X).2.1 = .error .valueError) ∧
    ((4 ∣ lastDim X ∨ 5 ∣ lastDim X ∨ 2 ∣ lastDim X) →
      (MemoryEfficientIndex.create s X).2.1 ≠ .error .valueError) := by
  constructor
  · rintro ⟨h4, h5, h2⟩
    have m4 : ¬ lastDim X % 4 = 0 := by omega
    have m5 : ¬ lastDim X % 5 = 0 := by omega
    have m2 : ¬ lastDim X % 2 = 0 := by omega
    simp [MemoryEfficientIndex.create, MemoryEfficientIndex.chooseM, m4, m5, m2]
  · intro hdvd hcontra
    by_cases m4 : lastDim X % 4 = 0
    · simp [MemoryEfficientIndex.create, MemoryEfficientIndex.chooseM, m4] at hcontra
    · by_cases m5 : lastDim X % 5 = 0
      · simp [MemoryEfficientIndex.create, MemoryEfficientIndex.chooseM, m4, m5] at hcontra
      · by_cases m2 : lastDim X % 2 = 0
        · simp [MemoryEfficientIndex.create, MemoryEfficientIndex.chooseM,
            m4, m5, m2] at hcontra
        · rcases hdvd with h | h | h <;> omega

/-- Claim C4 witness: dimension 7 raises, dimension 6 does not. -/
theorem C4_configuration_error_witness :
    (MemoryEfficientIndex.create MemoryEfficientIndex.new
        [[(0:ℚ),0,0,0,0,0,0]]).2.1 = .error .valueError ∧
    (MemoryEfficientIndex.create MemoryEfficientIndex.new
        [[(0:ℚ),0,0,0,0,0]]).2.1 ≠ .error .valueError :=
  ⟨(C4_configuration_error MemoryEfficientIndex.new _).1 (by decide),
   (C4_configuration_error MemoryEfficientIndex.new _).2 (by decide)⟩

/-- Claim C5, confirmed. When no candidate subdivision factor divides the
dimension, `MemoryEfficientIndex.create` raises at the factor-selection
statement: the trace contains no quantizer construction or training step,
the instance state is returned unchanged, and an unbuilt instance still
answers query with the not-built error. -/
theorem C5_fail_fast (s : MemoryEfficientIndex) (X : Mat)
    (h4 : ¬ 4 ∣ lastDim X) (h5 : ¬ 5 ∣ lastDim X) (h2 : ¬ 2 ∣ lastDim X) :
    MemoryEfficientIndex.create s X
        = (s, .error .valueError, [CreateStep.selectM]) ∧
    CreateStep.constructQuantizer ∉ (MemoryEfficientIndex.create s X).2.2 ∧
    CreateStep.trainIndex ∉ (MemoryEfficientIndex.create s X).2.2 ∧
    (MemoryEfficientIndex.create s X).1 = s ∧
    (s.index = none → ∀ q k,
      MemoryEfficientIndex.query (MemoryEfficientIndex.create s X).1 q k
        = .error .attributeNone) := by
  have m4 : ¬ lastDim X % 4 = 0 := by omega
  have m5 : ¬ lastDim X % 5 = 0 := by omega
  have m2 : ¬ lastDim X % 2 = 0 := by omega
  have hc : MemoryEfficientIndex.create s X
      = (s, .error .valueError, [CreateStep.selectM]) := by
    simp [MemoryEfficientIndex.create, MemoryEfficientIndex.chooseM, m4, m5, m2]
  refine ⟨hc, ?_, ?_, ?_, ?_⟩
  · rw [hc]
    simp
  · rw [hc]
    simp
  · rw [hc]
  · intro hnone q k
    rw [hc]
    cases s with
    | mk o =>
        cases o with
        | none => rfl
        | some _ => simp at hnone

/-- Claim C5 witness: the fail-fast behaviour at dimension 7. -/
theorem C5_fail_fast_witness :
    MemoryEfficientIndex.create MemoryEfficientIndex.new [[(0:ℚ),0,0,0,0,0,0]]
      = (MemoryEfficientIndex.new, .error .valueError, [CreateStep.selectM]) :=
  (C5_fail_fast MemoryEfficientIndex.new [[(0:ℚ),0,0,0,0,0,0]]
    (by decide) (by decide) (by decide)).1

/-- Claim C6, confirmed. On the six-point planar dataset with query
`(0,0)` and `k = 3`, both exact backends return indices `[0, 1, 2]`
(ascending distance, ties broken by the lower index) and distances
`[0, 1, 1]` — here the squared and unsquared distances coincide because
every value is 0 or 1. -/
theorem C6_example_dataset :
    FastIndex.query
        (FastIndex.new.create [[0,0],[1,0],[0,1],[10,10],[11,10],[10,11]]) [[0,0]] 3
      = .ok ([((0:ℚ) : WithTop ℚ), ((1:ℚ) : WithTop ℚ), ((1:ℚ) : WithTop ℚ)],
             [0, 1, 2]) ∧
    cKDTreeIndex.query
        (cKDTreeIndex.new.create [[0,0],[1,0],[0,1],[10,10],[11,10],[10,11]]) [0,0] 3
      = .ok ([((0:ℝ) : WithTop ℝ), ((1:ℝ) : WithTop ℝ), ((1:ℝ) : WithTop ℝ)],
             [0, 1, 2]) := by
  constructor
  · norm_num [FastIndex.query, FastIndex.create, FastIndex.new, IndexFlatL2.search,
      IndexFlatL2.searchOne, IndexFlatL2.add, IndexFlatL2.empty, lastDim,
      exactKnn, rankedNeighbors, sqDist, knnLE, List.insertionSort,
      List.orderedInsert, List.enum, List.enumFrom]
  · norm_num [cKDTreeIndex.query, cKDTreeIndex.create, cKDTreeIndex.new,
      cKDTree.queryOne, exactKnn, rankedNeighbors, sqDist, knnLE,
      List.insertionSort, List.orderedInsert, List.enum, List.enumFrom,
      Real.sqrt_zero, Real.sqrt_one]

/-- Claim C7 counterexample: on a one-row dataset with `k = 2`, both
backends succeed and return length-2 results — the result is neither
clamped to the 1 available row nor an error — and the two backends pad
with different sentinel indices (faiss `-1`, scipy `n = 1`). -/
theorem C7_counterexample :
    FastIndex.query (FastIndex.new.create [[(0:ℚ)]]) [[0]] 2
        = .ok ([((0:ℚ) : WithTop ℚ), ⊤], [0, -1]) ∧
    cKDTreeIndex.query (cKDTreeIndex.new.create [[(0:ℚ)]]) [0] 2
        = .ok ([((0:ℝ) : WithTop ℝ), ⊤], [0, 1]) ∧
    ([(0:Int), -1].length ≠ ([[(0:ℚ)]] : Mat).length) ∧
    ((1:Nat) = ([[(0:ℚ)]] : Mat).length ∧ (-1:Int) ≠ ((1:Nat) : Int)) := by
  refine ⟨?_, ?_, by decide, by decide, by decide⟩
  · norm_num [FastIndex.query, FastIndex.create, FastIndex.new, IndexFlatL2.search,
      IndexFlatL2.searchOne, IndexFlatL2.add, IndexFlatL2.empty, lastDim,
      exactKnn, rankedNeighbors, sqDist, knnLE, List.insertionSort,
      List.orderedInsert, List.enum, List.enumFrom, List.replicate]
  · norm_num [cKDTreeIndex.query, cKDTreeIndex.create, cKDTreeIndex.new,
      cKDTree.queryOne, exactKnn, rankedNeighbors, sqDist, knnLE,
      List.insertionSort, List.orderedInsert, List.enum, List.enumFrom,
      Real.sqrt_zero, List.replicate]

/-- Claim C7, corrected. When `k` exceeds the number of rows `N`, neither
backend clamps to `N` and neither raises: both return length-`k` results
whose entries beyond `N` are padding — faiss pads distances with its
infinite sentinel and labels with `-1`, scipy pads distances with
infinity and indices with `N`. -/
theorem C7_padding_behavior (X : Mat) (q : Vec) (k : Nat) (hN : X.length ≤ k) :
    ∃ df jf dt jt,
      FastIndex.query (FastIndex.new.create X) [q] k = .ok (df, jf) ∧
      cKDTreeIndex.query (cKDTreeIndex.new.create X) q k = .ok (dt, jt) ∧
      df.length = k ∧ jf.length = k ∧ dt.length = k ∧ jt.length = k ∧
      jf.drop X.length = List.replicate (k - X.length) (-1) ∧
      jt.drop X.length = List.replicate (k - X.length) X.length ∧
      df.drop X.length = List.replicate (k - X.length) ⊤ ∧
      dt.drop X.length = List.replicate (k - X.length) ⊤ := by
  have hlen : (exactKnn X q k).length = X.length := by
    rw [length_exactKnn]; omega
  refine ⟨(exactKnn X q k).map (fun p => ((p.2 : ℚ) : WithTop ℚ))
            ++ List.replicate (k - X.length) ⊤,
          (exactKnn X q k).map (fun p => (p.1 : Int))
            ++ List.replicate (k - X.length) (-1),
          (exactKnn X q k).map (fun p => ((Real.sqrt (p.2 : ℝ) : ℝ) : WithTop ℝ))
            ++ List.replicate (k - X.length) ⊤,
          (exactKnn X q k).map Prod.fst
            ++ List.replicate (k - X.length) X.length, ?_, ?_, ?_, ?_, ?_, ?_, ?_, ?_, ?_, ?_⟩
  · rw [flat_query_built]
    simp [IndexFlatL2.searchOne, created_flat_xb, hlen]
  · rw [tree_query_built]
    simp [cKDTree.queryOne, hlen]
  · simp [hlen]; omega
  · simp [hlen]; omega
  · simp [hlen]; omega
  · simp [hlen]; omega
  · rw [List.drop_left' (by simp [hlen])]
  · rw [List.drop_left' (by simp [hlen])]
  · rw [List.drop_left' (by simp [hlen])]
  · rw [List.drop_left' (by simp [hlen])]

/-- Claim C7 witness: the padding behaviour at `N = 1`, `k = 2`. -/
theorem C7_padding_behavior_witness :
    ([[(0:ℚ)]] : Mat).length ≤ 2 ∧
    (∃ df jf dt jt,
      FastIndex.query (FastIndex.new.create [[(0:ℚ)]]) [[0]] 2 = .ok (df, jf) ∧
      cKDTreeIndex.query (cKDTreeIndex.new.create [[(0:ℚ)]]) [0] 2 = .ok (dt, jt) ∧
      df.length = 2 ∧ jf.length = 2 ∧ dt.length = 2 ∧ jt.length = 2 ∧
      jf.drop ([[(0:ℚ)]] : Mat).length
        = List.replicate (2 - ([[(0:ℚ)]] : Mat).length) (-1) ∧
      jt.drop ([[(0:ℚ)]] : Mat).length
        = List.replicate (2 - ([[(0:ℚ)]] : Mat).length) ([[(0:ℚ)]] : Mat).length ∧
      df.drop ([[(0:ℚ)]] : Mat).length
        = List.replicate (2 - ([[(0:ℚ)]] : Mat).length) ⊤ ∧
      dt.drop ([[(0:ℚ)]] : Mat).length
        = List.replicate (2 - ([[(0:ℚ)]] : Mat).length) ⊤) :=
  ⟨by decide, C7_padding_behavior [[(0:ℚ)]] [0] 2 (by decide)⟩

/-- Claim C8, confirmed. On a freshly constructed instance of any
backend (where `self.index` is still `None`), query raises the not-built
error (Python AttributeError, the spec taxonomy's NotBuiltError). -/
theorem C8_query_before_create (q : Mat) (qv : Vec) (k : Nat) :
    FastIndex.query FastIndex.new q k = .error .attributeNone ∧
    MemoryEfficientIndex.query MemoryEfficientIndex.new q k = .error .attributeNone ∧
    cKDTreeIndex.query cKDTreeIndex.new qv k = .error .attributeNone :=
  ⟨rfl, rfl, rfl⟩

/-- Claim C9 counterexample: on the dataset `[[0],[10]]` with a batch of
two query vectors and `k = 1`, `FastIndex.query` returns only the first
query's result; the second query vector does not influence the result at
all (replacing `[10]` by `[99]` changes nothing), and the second query's
true nearest neighbour (row 1) is absent from the returned indices. -/
theorem C9_counterexample :
    FastIndex.query (FastIndex.new.create [[(0:ℚ)],[10]]) [[0],[10]] 1
        = .ok ([((0:ℚ) : WithTop ℚ)], [0]) ∧
    FastIndex.query (FastIndex.new.create [[(0:ℚ)],[10]]) [[0],[99]] 1
        = .ok ([((0:ℚ) : WithTop ℚ)], [0]) ∧
    exactKnn [[(0:ℚ)],[10]] [10] 1 = [(1, 0)] ∧
    (1:Int) ∉ ([0] : List Int) := by
  refine ⟨?_, ?_, ?_, by decide⟩
  · norm_num [FastIndex.query, FastIndex.create, FastIndex.new, IndexFlatL2.search,
      IndexFlatL2.searchOne, IndexFlatL2.add, IndexFlatL2.empty, lastDim,
      exactKnn, rankedNeighbors, sqDist, knnLE, List.insertionSort,
      List.orderedInsert, List.enum, List.enumFrom]
  · norm_num [FastIndex.query, FastIndex.create, FastIndex.new, IndexFlatL2.search,
      IndexFlatL2.searchOne, IndexFlatL2.add, IndexFlatL2.empty, lastDim,
      exactKnn, rankedNeighbors, sqDist, knnLE, List.insertionSort,
      List.orderedInsert, List.enum, List.enumFrom]
  · norm_num [exactKnn, rankedNeighbors, sqDist, knnLE, List.insertionSort,
      List.orderedInsert, List.enum, List.enumFrom]

/-- Claim C9, corrected. For a batch, the faiss-backed backends return
only the first query vector's k results (the trailing batch rows are
ignored), while `cKDTreeIndex` returns one length-k result row per query
vector. -/
theorem C9_batch_behavior (X : Mat) (q : Vec) (rest : Mat) (k : Nat)
    (i : IndexIVFPQ) (xs : Mat) :
    FastIndex.query (FastIndex.new.create X) (q :: rest) k
        = FastIndex.query (FastIndex.new.create X) [q] k ∧
    MemoryEfficientIndex.query ⟨some i⟩ (q :: rest) k
        = MemoryEfficientIndex.query ⟨some i⟩ [q] k ∧
    (∀ rs, cKDTreeIndex.queryBatch (cKDTreeIndex.new.create X) xs k = .ok rs →
      rs.length = xs.length ∧ ∀ r ∈ rs, r.1.length = k ∧ r.2.length = k) := by
  refine ⟨?_, ?_, ?_⟩
  · simp [FastIndex.query, FastIndex.create, FastIndex.new, IndexFlatL2.search]
  · simp [MemoryEfficientIndex.query, IndexIVFPQ.search]
  · intro rs hrs
    have hrs' : rs = (cKDTree.mk X).queryBatch xs k := by
      simp [cKDTreeIndex.queryBatch, cKDTreeIndex.create, cKDTreeIndex.new] at hrs
      exact hrs.symm
    subst hrs'
    constructor
    · simp [cKDTree.queryBatch]
    · intro r hr
      rcases List.mem_map.mp hr with ⟨x, _, hx⟩
      have hle : (exactKnn X x k).length ≤ k := by
        rw [length_exactKnn]; omega
      constructor
      · rw [← hx]
        simp [cKDTree.queryOne]
        omega
      · rw [← hx]
        simp [cKDTree.queryOne]
        omega

/-- Claim C9 witness: the corrected batch behaviour at a concrete
input. -/
theorem C9_batch_behavior_witness :
    ((cKDTree.mk [[(0:ℚ)]]).queryBatch [[(0:ℚ)],[1]] 1).length = 2 := by
  have h := (C9_batch_behavior [[(0:ℚ)]] [0] [] 1 ⟨1, 100, 2, 8, [[0]]⟩
      [[(0:ℚ)],[1]]).2.2 ((cKDTree.mk [[(0:ℚ)]]).queryBatch [[(0:ℚ)],[1]] 1) rfl
  exact h.1.trans (by decide)

/-- Claim C10, confirmed. The subdivision factor is selected by the fixed
preference order 4, 5, 2; in particular a dimension divisible by both 4
and 5 selects 4, and a successful selection is exactly the `m` stored in
the built IVFPQ index. -/
theorem C10_m_selection (d : Nat) (s : MemoryEfficientIndex) (X : Mat) (m : Nat) :
    (4 ∣ d → MemoryEfficientIndex.chooseM d = .ok 4) ∧
    (¬ 4 ∣ d → 5 ∣ d → MemoryEfficientIndex.chooseM d = .ok 5) ∧
    (¬ 4 ∣ d → ¬ 5 ∣ d → 2 ∣ d → MemoryEfficientIndex.chooseM d = .ok 2) ∧
    (4 ∣ d → 5 ∣ d → MemoryEfficientIndex.chooseM d = .ok 4) ∧
    (MemoryEfficientIndex.chooseM (lastDim X) = .ok m →
      (MemoryEfficientIndex.create s X).1.index
        = some ⟨lastDim X, 100, m, 8, X⟩) := by
  refine ⟨?_, ?_, ?_, ?_, ?_⟩
  · intro h
    have m4 : d % 4 = 0 := by omega
    simp [MemoryEfficientIndex.chooseM, m4]
  · intro h4 h5
    have m4 : ¬ d % 4 = 0 := by omega
    have m5 : d % 5 = 0 := by omega
    simp [MemoryEfficientIndex.chooseM, m4, m5]
  · intro h4 h5 h2
    have m4 : ¬ d % 4 = 0 := by omega
    have m5 : ¬ d % 5 = 0 := by omega
    have m2 : d % 2 = 0 := by omega
    simp [MemoryEfficientIndex.chooseM, m4, m5, m2]
  · intro h _
    have m4 : d % 4 = 0 := by omega
    simp [MemoryEfficientIndex.chooseM, m4]
  · intro h
    simp [MemoryEfficientIndex.create, h]

/-- Claim C10 witness: preference order at dimensions 20, 10, 6, and the
stored factor on a concrete build. -/
theorem C10_m_selection_witness :
    MemoryEfficientIndex.chooseM 20 = .ok 4 ∧
    MemoryEfficientIndex.chooseM 10 = .ok 5 ∧
    MemoryEfficientIndex.chooseM 6 = .ok 2 ∧
    (MemoryEfficientIndex.create MemoryEfficientIndex.new [[(0:ℚ),0]]).1.index
        = some ⟨2, 100, 2, 8, [[(0:ℚ),0]]⟩ :=
  ⟨(C10_m_selection 20 MemoryEfficientIndex.new [] 0).1 (by decide),
   (C10_m_selection 10 MemoryEfficientIndex.new [] 0).2.1 (by decide) (by decide),
   (C10_m_selection 6 MemoryEfficientIndex.new [] 0).2.2.1
      (by decide) (by decide) (by decide),
   (C10_m_selection 0 MemoryEfficientIndex.new [[(0:ℚ),0]] 2).2.2.2.2 (by rfl)⟩
